import Mathlib

/-!
Shallow embedding of the interaction core of the iTwinUI-react ColorPicker
and the Slider Thumb (src/core/ColorPicker/ColorPicker.tsx and the Thumb
component). JavaScript numbers are modelled as rationals; Math.round is
round-half-up, which is Mathlib round (round x = ⌊x + 1/2⌋).
-/

/-- A DOM rectangle as returned by getBoundingClientRect. In a browser,
bottom = top + height and right = left + width. -/
structure DOMRect where
  top : ℚ
  left : ℚ
  bottom : ℚ
  right : ℚ
  width : ℚ
  height : ℚ
deriving DecidableEq

/-- Modelled from the spec: the utility getBoundedValue (imported from
../utils, whose source is not under src/) clamps a value to the given
bounds, per the spec sentence clamp pointer to rect bounds. -/
def getBoundedValue (value lo hi : ℚ) : ℚ :=
  min hi (max lo value)

/-- getVerticalPercentageOfRectangle from ColorPicker.tsx lines 29-32. -/
def getVerticalPercentageOfRectangle (rect : DOMRect) (pointer : ℚ) : ℚ :=
  ((getBoundedValue pointer rect.top rect.bottom - rect.top) / rect.height) * 100

/-- getHorizontalPercentageOfRectangle from ColorPicker.tsx lines 33-36. -/
def getHorizontalPercentageOfRectangle (rect : DOMRect) (pointer : ℚ) : ℚ :=
  ((getBoundedValue pointer rect.left rect.right - rect.left) / rect.width) * 100

/-- An HSV triple as passed to ColorValue.fromHSV. -/
structure Hsv where
  h : ℚ
  s : ℚ
  v : ℚ
deriving DecidableEq

/-- A callback invocation observable at the component boundary: live is
the onChange prop (live update while dragging), commit is the
onChangeCompleted prop, each carrying the HSV the emitted ColorValue was
built from. -/
inductive Notif where
  | live (c : Hsv)
  | commit (c : Hsv)
deriving DecidableEq

/-- The React state of ColorPicker that the interaction handlers read and
write. dotHsv stands for dotColor.hsv and squareHue for squareColor.hsv.h:
per the ColorValue invariant of the spec, fillColor applied to
ColorValue.fromHSV x has hsv component x, so storing the HSV triple itself
is faithful on the paths the handlers use. -/
structure PickerState where
  dotHsv : Hsv
  squareHue : ℚ
  squareTop : ℚ
  squareLeft : ℚ
  sliderValue : ℚ
  activeDotIndex : Option ℕ
deriving DecidableEq

/-- updateSlider from ColorPicker.tsx lines 264-294: store the slider
percentage y, recompute the hue as Math.round(y * 3.59), rebuild the
square color at s = v = 100 and the dot color keeping its s and v, and
fire onChangeCompleted when selectionChanged is true, onChange otherwise. -/
def updateSlider (st : PickerState) (y : ℚ) (selectionChanged : Bool) :
    PickerState × List Notif :=
  let hue : ℚ := (round (y * (359 / 100)) : ℤ)
  let newDot : Hsv := ⟨hue, st.dotHsv.s, st.dotHsv.v⟩
  ({ st with sliderValue := y, squareHue := hue, dotHsv := newDot },
   if selectionChanged then [.commit newDot] else [.live newDot])

/-- The hue formula as the spec words it for the hue strip: round of
huePercent * 3.6, clamped to the hue interval (integers 0 to 359). Stated
from the spec only to compare against updateSlider. -/
def specHueFromPercent (y : ℚ) : ℤ :=
  max 0 (min 359 (round (y * (36 / 10))))

/-- The slider position initializer from ColorPicker.tsx lines 230-232:
Math.round(hue / 3.59). -/
def initialSliderValue (hue : ℚ) : ℤ :=
  round (hue / (359 / 100))

/-- updateColorDot from ColorPicker.tsx lines 312-329: move the dot to
(x, y), recompute the color from the square hue with s = x and
v = 100 - y, and fire onChangeCompleted only when selectionChanged is
true; no callback fires otherwise. -/
def updateColorDot (st : PickerState) (x y : ℚ) (selectionChanged : Bool) :
    PickerState × List Notif :=
  let newColor : Hsv := ⟨st.squareHue, x, 100 - y⟩
  ({ st with squareTop := y, squareLeft := x, dotHsv := newColor },
   if selectionChanged then [.commit newColor] else [])

/-- The callbackType argument of updateSquareValue. -/
inductive CallbackType where
  | onChange
  | onUpdate
  | onClick
deriving DecidableEq

/-- updateSquareValue from ColorPicker.tsx lines 331-357. squarePresent
models squareRef.current being non-null; rect is its bounding rectangle at
event time; clientX and clientY are the pointer event coordinates. -/
def updateSquareValue (st : PickerState) (squarePresent : Bool)
    (rect : DOMRect) (clientX clientY : ℚ) (callbackType : CallbackType) :
    PickerState × List Notif :=
  if squarePresent && (st.activeDotIndex == some 1 || callbackType == .onClick) then
    let percentX := getHorizontalPercentageOfRectangle rect clientX
    let percentY := getVerticalPercentageOfRectangle rect clientY
    if callbackType == .onChange || callbackType == .onClick then
      updateColorDot st percentX percentY true
    else if callbackType == .onUpdate then
      updateColorDot st percentX percentY false
    else (st, [])
  else (st, [])

/-- An observable step of the pointer-up handler, listed in execution
order. -/
inductive TraceStep where
  | notif (n : Notif)
  | clearActiveDot
deriving DecidableEq

/-- handleSquarePointerUp from ColorPicker.tsx lines 358-366: first run
updateSquareValue with onChange (which is where onChangeCompleted fires),
then clear activeDotIndex. Returns the new state and the ordered trace of
observable steps. -/
def handleSquarePointerUp (st : PickerState) (squarePresent : Bool)
    (rect : DOMRect) (clientX clientY : ℚ) :
    PickerState × List TraceStep :=
  let r := updateSquareValue st squarePresent rect clientX clientY .onChange
  ({ r.1 with activeDotIndex := none },
   r.2.map TraceStep.notif ++ [TraceStep.clearActiveDot])

/-- handleSquarePointerMove from ColorPicker.tsx lines 373-380: the
onUpdate path of updateSquareValue. -/
def handleSquarePointerMove (st : PickerState) (squarePresent : Bool)
    (rect : DOMRect) (clientX clientY : ℚ) :
    PickerState × List Notif :=
  updateSquareValue st squarePresent rect clientX clientY .onUpdate

/-- The keys handleColorDotKeyDown distinguishes; space covers the event
key values Space and Spacebar. -/
inductive DotKey where
  | arrowDown
  | arrowUp
  | arrowLeft
  | arrowRight
  | enter
  | space
  | other
deriving DecidableEq

/-- handleColorDotKeyDown from ColorPicker.tsx lines 396-426: arrow keys
move the dot by one percentage point clamped to the square, Enter and
Space recompute and commit at the unchanged position. -/
def handleColorDotKeyDown (st : PickerState) (key : DotKey) :
    PickerState × List Notif :=
  let x := st.squareLeft
  let y := st.squareTop
  match key with
  | .arrowDown => updateColorDot st x (min (y + 1) 100) false
  | .arrowUp => updateColorDot st x (max (y - 1) 0) false
  | .arrowLeft => updateColorDot st (max (x - 1) 0) y false
  | .arrowRight => updateColorDot st (min (x + 1) 100) y false
  | .enter => updateColorDot st x y true
  | .space => updateColorDot st x y true
  | .other => (st, [])

/-- The keys the Slider Thumb handleOnKeyDown distinguishes. -/
inductive ThumbKey where
  | arrowLeft
  | arrowRight
  | homeKey
  | endKey
  | other
deriving DecidableEq

/-- handleOnKeyDown of the Slider Thumb component (lines 45-63): the value
passed to onThumbValueChanged for the pressed key, or none when the key is
not handled. minVal and maxVal are the clamping bounds the Slider passes
down (the crossing rules), step the configured step. -/
def handleOnKeyDown (key : ThumbKey) (value step minVal maxVal : ℚ) :
    Option ℚ :=
  match key with
  | .arrowLeft => some (max (value - step) minVal)
  | .arrowRight => some (min (value + step) maxVal)
  | .homeKey => some minVal
  | .endKey => some maxVal
  | .other => none

/-- The keys the palette handleKeyDown distinguishes; space covers the
event key values Space and Spacebar. -/
inductive PaletteKey where
  | arrowDown
  | arrowUp
  | arrowLeft
  | arrowRight
  | enter
  | space
  | other
deriving DecidableEq

/-- The observable outcome of the palette handleKeyDown: the index passed
to setFocusedColor if any, the index of the swatch whose click method was
invoked if any, and whether event.preventDefault was called. -/
structure PaletteResult where
  newFocus : Option ℕ
  clicked : Option ℕ
  defaultPrevented : Bool
deriving DecidableEq

/-- Array.prototype.findIndex as an Option: index of the first element
satisfying p, none instead of -1. -/
def findIdxOpt (p : ℚ → Bool) : List ℚ → Option ℕ
  | [] => none
  | a :: as => if p a then some 0 else (findIdxOpt p as).map (· + 1)

/-- The ArrowDown search of handleKeyDown (lines 180-188): the first index
after cur whose offsetLeft equals the offsetLeft at cur. -/
def findSameOffsetAfter (offsets : List ℚ) (cur : ℕ) : Option ℕ :=
  (findIdxOpt (fun o => o == offsets.getD cur 0) (offsets.drop (cur + 1))).map
    (fun k => cur + 1 + k)

/-- The ArrowUp backwards loop of handleKeyDown (lines 189-201): scan
indices i-1, i-2, ..., 0 for an offsetLeft equal to target. -/
def findSameOffsetBefore (offsets : List ℚ) (target : ℚ) : ℕ → Option ℕ
  | 0 => none
  | j + 1 =>
    if offsets.getD j 0 == target then some j
    else findSameOffsetBefore offsets target j

/-- The tail of handleKeyDown (lines 216-219): focus newIndex when it lies
within bounds, otherwise do nothing; none models newIndex = -1. -/
def applyNewIndex (len : ℕ) (newIndex : Option ℕ) : PaletteResult :=
  match newIndex with
  | some j => if j < len then ⟨some j, none, true⟩ else ⟨none, none, false⟩
  | none => ⟨none, none, false⟩

/-- handleKeyDown from ColorPicker.tsx lines 165-220 (color palette arrow
navigation). offsets are the offsetLeft values of the rendered swatches in
document order; focused is the index of the swatch that is the document
activeElement, if any (the code falls back to index 0 otherwise). -/
def handleKeyDown (offsets : List ℚ) (focused : Option ℕ) (key : PaletteKey) :
    PaletteResult :=
  if offsets.isEmpty then ⟨none, none, false⟩
  else
    let currentIndex := focused.getD 0
    match key with
    | .arrowDown =>
      applyNewIndex offsets.length (findSameOffsetAfter offsets currentIndex)
    | .arrowUp =>
      applyNewIndex offsets.length
        (findSameOffsetBefore offsets (offsets.getD currentIndex 0) currentIndex)
    | .arrowLeft => applyNewIndex offsets.length (some (currentIndex - 1))
    | .arrowRight =>
      applyNewIndex offsets.length
        (some (min (currentIndex + 1) (offsets.length - 1)))
    | .enter => ⟨none, some currentIndex, true⟩
    | .space => ⟨none, some currentIndex, true⟩
    | .other => ⟨none, none, false⟩

/-- The runtime value of the selectedColor prop as the initializer on
lines 140-144 inspects it: the typeof check distinguishes strings from
everything else (a ColorValue instance, or undefined). -/
inductive JsColorInput where
  | jsString (s : String)
  | jsColorValue (hsv : Hsv)
  | jsUndefined
deriving DecidableEq

/-- A ColorValue as the activeColor initializer constructs it: the
initializer only ever calls ColorValue.fromString, recorded with its
argument. -/
inductive ColorVal where
  | fromString (s : String)
deriving DecidableEq

/-- The activeColor useState initializer from ColorPicker.tsx lines
140-144: fromString of selectedColor when it is a string, else fromString
of the default hex 00121D. -/
def initialActiveColor (selectedColor : JsColorInput) : ColorVal :=
  match selectedColor with
  | .jsString s => .fromString s
  | _ => .fromString "#00121D"

/-- Modelled from the spec: the RangeInteractionModel configuration
consumed at construction (the Slider implementation is not under src/). -/
structure SliderConfig where
  min : ℚ
  max : ℚ
  step : ℚ
deriving DecidableEq

/-- Modelled from the spec: the error signalled at construction time for a
misconfigured range. -/
inductive ConfigurationError where
  | configurationError
deriving DecidableEq

/-- Modelled from the spec: the RangeInteractionModel state owning the
ThumbSet and the active thumb. -/
structure RangeModel where
  config : SliderConfig
  values : List ℚ
  active : Option ℕ
deriving DecidableEq

/-- Modelled from the spec: the model refuses construction when
min >= max or step <= 0, signalling a ConfigurationError at construction
time; otherwise it is built with no active thumb. -/
def mkRangeModel (cfg : SliderConfig) (initialValues : List ℚ) :
    Except ConfigurationError RangeModel :=
  if cfg.max ≤ cfg.min ∨ cfg.step ≤ 0 then .error .configurationError
  else .ok ⟨cfg, initialValues, none⟩

/-- Modelled from the spec: activate marks a thumb active and fails
silently (no-op) when the index is out of bounds. -/
def RangeModel.activate (m : RangeModel) (i : ℕ) : RangeModel :=
  if i < m.values.length then { m with active := some i } else m

/-- Modelled from the spec: moveActiveThumb clamps the raw value to the
configured range; out-of-range values are clamped, never rejected. -/
def RangeModel.moveActiveThumb (m : RangeModel) (rawValue : ℚ) : ℚ :=
  getBoundedValue rawValue m.config.min m.config.max

/-! ## Helper lemmas -/

/-- A value clamped to an interval of positive length, normalized and
scaled to percent, lies in the percent interval. -/
lemma clamped_ratio_bounds (v lo hi len : ℚ) (hlen : 0 < len)
    (hhi : hi = lo + len) :
    0 ≤ ((getBoundedValue v lo hi - lo) / len) * 100 ∧
      ((getBoundedValue v lo hi - lo) / len) * 100 ≤ 100 := by
  have h1 : lo ≤ getBoundedValue v lo hi :=
    le_min (by linarith) (le_max_left _ _)
  have h2 : getBoundedValue v lo hi ≤ hi := min_le_left _ _
  have hq0 : 0 ≤ (getBoundedValue v lo hi - lo) / len :=
    div_nonneg (by linarith) hlen.le
  have hq1 : (getBoundedValue v lo hi - lo) / len ≤ 1 :=
    (div_le_one hlen).mpr (by linarith)
  constructor <;> nlinarith

/-- Bounds for round on the hue range. -/
lemma round_hue_bounds {t : ℚ} (h0 : 0 ≤ t) (h1 : t ≤ 359) :
    0 ≤ round t ∧ round t ≤ 359 := by
  rw [round_eq]
  refine ⟨Int.le_floor.mpr (by push_cast; linarith), ?_⟩
  have h : (⌊t + 1 / 2⌋ : ℤ) < 360 := Int.floor_lt.mpr (by push_cast; linarith)
  omega

/-! ## Claims -/

/-- C4: for every pointer coordinate and every field rectangle with
positive width and height, getHorizontalPercentageOfRectangle and
getVerticalPercentageOfRectangle clamp the pointer to the rectangle and
return percentages in the interval from 0 to 100. -/
theorem C4_square_coords_bounded (rect : DOMRect) (px py : ℚ)
    (hw : 0 < rect.width) (hh : 0 < rect.height)
    (hr : rect.right = rect.left + rect.width)
    (hb : rect.bottom = rect.top + rect.height) :
    0 ≤ getHorizontalPercentageOfRectangle rect px ∧
      getHorizontalPercentageOfRectangle rect px ≤ 100 ∧
      0 ≤ getVerticalPercentageOfRectangle rect py ∧
      getVerticalPercentageOfRectangle rect py ≤ 100 := by
  have hH := clamped_ratio_bounds px rect.left rect.right rect.width hw hr
  have hV := clamped_ratio_bounds py rect.top rect.bottom rect.height hh hb
  exact ⟨hH.1, hH.2, hV.1, hV.2⟩

/-- C4 witness: a concrete 100 by 100 rectangle with the pointer far
outside it on both axes. -/
theorem C4_square_coords_bounded_witness :
    0 ≤ getHorizontalPercentageOfRectangle ⟨0, 0, 100, 100, 100, 100⟩ 150 ∧
      getHorizontalPercentageOfRectangle ⟨0, 0, 100, 100, 100, 100⟩ 150 ≤ 100 ∧
      0 ≤ getVerticalPercentageOfRectangle ⟨0, 0, 100, 100, 100, 100⟩ (-50) ∧
      getVerticalPercentageOfRectangle ⟨0, 0, 100, 100, 100, 100⟩ (-50) ≤ 100 :=
  C4_square_coords_bounded ⟨0, 0, 100, 100, 100, 100⟩ 150 (-50)
    (by norm_num) (by norm_num) (by norm_num) (by norm_num)

/-- C1 counterexample: at hue-strip position 90 the code computes
Math.round(90 * 3.59) = 323, while the claimed formula round(90 * 3.6)
clamped to the hue interval gives 324; and at position 100 the code hue is
359, which is not the hue 0 (or 360) modulo 360, so the strip endpoints do
not coincide. -/
theorem C1_counterexample :
    (updateSlider ⟨⟨0, 50, 50⟩, 0, 0, 0, 0, none⟩ 90 false).1.squareHue = 323 ∧
      specHueFromPercent 90 = 324 ∧
      ((323 : ℚ) ≠ (324 : ℚ)) ∧
      (updateSlider ⟨⟨0, 50, 50⟩, 0, 0, 0, 0, none⟩ 100 false).1.squareHue = 359 ∧
      (359 : ℤ) % 360 ≠ 0 % 360 := by
  refine ⟨?_, ?_, by norm_num, ?_, by decide⟩
  · norm_num [updateSlider, round_eq]
  · norm_num [specHueFromPercent, round_eq]
  · norm_num [updateSlider, round_eq]

/-- C1 amended: for every hue-strip position huePercent in the interval
from 0 to 100, updateSlider recomputes the hue as
Math.round(huePercent * 3.59), which already lies in the interval from 0
to 359 (inside the claimed clamp interval); position 100 yields hue 359
and position 0 yields hue 0, one hue unit short of a full wrap. -/
theorem C1_hue_from_slider (st : PickerState) (y : ℚ) (b : Bool)
    (h0 : 0 ≤ y) (h1 : y ≤ 100) :
    (updateSlider st y b).1.squareHue = ((round (y * (359 / 100)) : ℤ) : ℚ) ∧
      (0 : ℚ) ≤ (updateSlider st y b).1.squareHue ∧
      (updateSlider st y b).1.squareHue ≤ 359 ∧
      (updateSlider st 100 b).1.squareHue = 359 ∧
      (updateSlider st 0 b).1.squareHue = 0 := by
  have ht0 : 0 ≤ y * (359 / 100) := by nlinarith
  have ht1 : y * (359 / 100) ≤ 359 := by nlinarith
  have hb := round_hue_bounds ht0 ht1
  refine ⟨rfl, ?_, ?_, ?_, ?_⟩
  · show (0 : ℚ) ≤ ((round (y * (359 / 100)) : ℤ) : ℚ)
    exact_mod_cast hb.1
  · show ((round (y * (359 / 100)) : ℤ) : ℚ) ≤ 359
    exact_mod_cast hb.2
  · norm_num [updateSlider, round_eq]
  · norm_num [updateSlider, round_eq]

/-- C1 witness: the amended hue formula at hue-strip position 50. -/
theorem C1_hue_from_slider_witness :
    (0 : ℚ) ≤ 50 ∧ (50 : ℚ) ≤ 100 ∧
      ((updateSlider ⟨⟨0, 50, 50⟩, 0, 0, 0, 0, none⟩ 50 false).1.squareHue =
          ((round ((50 : ℚ) * (359 / 100)) : ℤ) : ℚ) ∧
        (0 : ℚ) ≤ (updateSlider ⟨⟨0, 50, 50⟩, 0, 0, 0, 0, none⟩ 50 false).1.squareHue ∧
        (updateSlider ⟨⟨0, 50, 50⟩, 0, 0, 0, 0, none⟩ 50 false).1.squareHue ≤ 359 ∧
        (updateSlider ⟨⟨0, 50, 50⟩, 0, 0, 0, 0, none⟩ 100 false).1.squareHue = 359 ∧
        (updateSlider ⟨⟨0, 50, 50⟩, 0, 0, 0, 0, none⟩ 0 false).1.squareHue = 0) :=
  ⟨by norm_num, by norm_num,
    C1_hue_from_slider ⟨⟨0, 50, 50⟩, 0, 0, 0, 0, none⟩ 50 false
      (by norm_num) (by norm_num)⟩

/-- C2 counterexample: updateColorDot at square position (50, 50) with
committing false fires no callback at all, while the claim requires a
live-update notification. -/
theorem C2_counterexample :
    (updateColorDot ⟨⟨0, 0, 100⟩, 0, 0, 0, 0, none⟩ 50 50 false).2 = [] := rfl

/-- C2 amended: for every square coordinate pair (x, y) in the 0 to 100
square, updateColorDot recomputes the color from hue = current square
hue, s = x, v = 100 - y; it emits a commit notification when committing is
true and emits no notification at all when committing is false. -/
theorem C2_update_from_square (st : PickerState) (x y : ℚ)
    (hx0 : 0 ≤ x) (hx1 : x ≤ 100) (hy0 : 0 ≤ y) (hy1 : y ≤ 100) :
    (updateColorDot st x y true).1.dotHsv = ⟨st.squareHue, x, 100 - y⟩ ∧
      (updateColorDot st x y true).2 =
        [Notif.commit ⟨st.squareHue, x, 100 - y⟩] ∧
      (updateColorDot st x y false).1.dotHsv = ⟨st.squareHue, x, 100 - y⟩ ∧
      (updateColorDot st x y false).2 = [] :=
  ⟨rfl, rfl, rfl, rfl⟩

/-- C2 witness: the amended statement at square position (25, 75). -/
theorem C2_update_from_square_witness :
    (0 : ℚ) ≤ 25 ∧ (25 : ℚ) ≤ 100 ∧ (0 : ℚ) ≤ 75 ∧ (75 : ℚ) ≤ 100 ∧
      ((updateColorDot ⟨⟨0, 0, 100⟩, 120, 0, 0, 0, none⟩ 25 75 true).1.dotHsv =
          ⟨120, 25, 100 - 75⟩ ∧
        (updateColorDot ⟨⟨0, 0, 100⟩, 120, 0, 0, 0, none⟩ 25 75 true).2 =
          [Notif.commit ⟨120, 25, 100 - 75⟩] ∧
        (updateColorDot ⟨⟨0, 0, 100⟩, 120, 0, 0, 0, none⟩ 25 75 false).1.dotHsv =
          ⟨120, 25, 100 - 75⟩ ∧
        (updateColorDot ⟨⟨0, 0, 100⟩, 120, 0, 0, 0, none⟩ 25 75 false).2 = []) :=
  ⟨by norm_num, by norm_num, by norm_num, by norm_num,
    C2_update_from_square ⟨⟨0, 0, 100⟩, 120, 0, 0, 0, none⟩ 25 75
      (by norm_num) (by norm_num) (by norm_num) (by norm_num)⟩

/-- C3: for every thumb value, step and clamping bounds, ArrowRight moves
to min(value + step, maxVal), ArrowLeft to max(value - step, minVal), Home
to minVal and End to maxVal; with min 0, max 5, step 1/4 and a single
thumb at 1/4 (so the clamping bounds are 0 and 5), one ArrowRight yields
1/2. -/
theorem C3_thumb_keydown (value step minVal maxVal : ℚ) :
    handleOnKeyDown ThumbKey.arrowRight value step minVal maxVal =
        some (min (value + step) maxVal) ∧
      handleOnKeyDown ThumbKey.arrowLeft value step minVal maxVal =
        some (max (value - step) minVal) ∧
      handleOnKeyDown ThumbKey.homeKey value step minVal maxVal = some minVal ∧
      handleOnKeyDown ThumbKey.endKey value step minVal maxVal = some maxVal ∧
      handleOnKeyDown ThumbKey.arrowRight (1 / 4) (1 / 4) 0 5 =
        some (1 / 2) := by
  refine ⟨rfl, rfl, rfl, rfl, ?_⟩
  show some (min ((1 : ℚ) / 4 + 1 / 4) 5) = some (1 / 2)
  norm_num

/-- C5: every arrow key moves the color dot by one percentage point
clamped to the square and emits nothing, and Enter or Space commits the
color recomputed at the unchanged position. -/
theorem C5_color_dot_keydown (st : PickerState)
    (hx0 : 0 ≤ st.squareLeft) (hx1 : st.squareLeft ≤ 100)
    (hy0 : 0 ≤ st.squareTop) (hy1 : st.squareTop ≤ 100) :
    ((handleColorDotKeyDown st DotKey.arrowDown).1.squareTop =
          min (st.squareTop + 1) 100 ∧
        (handleColorDotKeyDown st DotKey.arrowDown).1.squareLeft =
          st.squareLeft) ∧
      ((handleColorDotKeyDown st DotKey.arrowUp).1.squareTop =
          max (st.squareTop - 1) 0 ∧
        (handleColorDotKeyDown st DotKey.arrowUp).1.squareLeft =
          st.squareLeft) ∧
      ((handleColorDotKeyDown st DotKey.arrowLeft).1.squareLeft =
          max (st.squareLeft - 1) 0 ∧
        (handleColorDotKeyDown st DotKey.arrowLeft).1.squareTop =
          st.squareTop) ∧
      ((handleColorDotKeyDown st DotKey.arrowRight).1.squareLeft =
          min (st.squareLeft + 1) 100 ∧
        (handleColorDotKeyDown st DotKey.arrowRight).1.squareTop =
          st.squareTop) ∧
      ((handleColorDotKeyDown st DotKey.enter).1.squareLeft = st.squareLeft ∧
        (handleColorDotKeyDown st DotKey.enter).1.squareTop = st.squareTop ∧
        (handleColorDotKeyDown st DotKey.enter).2 =
          [Notif.commit ⟨st.squareHue, st.squareLeft, 100 - st.squareTop⟩]) ∧
      ((handleColorDotKeyDown st DotKey.space).1.squareLeft = st.squareLeft ∧
        (handleColorDotKeyDown st DotKey.space).1.squareTop = st.squareTop ∧
        (handleColorDotKeyDown st DotKey.space).2 =
          [Notif.commit ⟨st.squareHue, st.squareLeft, 100 - st.squareTop⟩]) :=
  ⟨⟨rfl, rfl⟩, ⟨rfl, rfl⟩, ⟨rfl, rfl⟩, ⟨rfl, rfl⟩,
    ⟨rfl, rfl, rfl⟩, ⟨rfl, rfl, rfl⟩⟩

/-- C5 witness: the color dot at (40, 99), where ArrowDown hits the 100
clamp. -/
theorem C5_color_dot_keydown_witness :
    (0 : ℚ) ≤ 40 ∧ (40 : ℚ) ≤ 100 ∧ (0 : ℚ) ≤ 99 ∧ (99 : ℚ) ≤ 100 ∧
      (((handleColorDotKeyDown ⟨⟨0, 40, 1⟩, 200, 99, 40, 0, none⟩
            DotKey.arrowDown).1.squareTop = min ((99 : ℚ) + 1) 100 ∧
          (handleColorDotKeyDown ⟨⟨0, 40, 1⟩, 200, 99, 40, 0, none⟩
            DotKey.arrowDown).1.squareLeft = 40) ∧
        ((handleColorDotKeyDown ⟨⟨0, 40, 1⟩, 200, 99, 40, 0, none⟩
            DotKey.arrowUp).1.squareTop = max ((99 : ℚ) - 1) 0 ∧
          (handleColorDotKeyDown ⟨⟨0, 40, 1⟩, 200, 99, 40, 0, none⟩
            DotKey.arrowUp).1.squareLeft = 40) ∧
        ((handleColorDotKeyDown ⟨⟨0, 40, 1⟩, 200, 99, 40, 0, none⟩
            DotKey.arrowLeft).1.squareLeft = max ((40 : ℚ) - 1) 0 ∧
          (handleColorDotKeyDown ⟨⟨0, 40, 1⟩, 200, 99, 40, 0, none⟩
            DotKey.arrowLeft).1.squareTop = 99) ∧
        ((handleColorDotKeyDown ⟨⟨0, 40, 1⟩, 200, 99, 40, 0, none⟩
            DotKey.arrowRight).1.squareLeft = min ((40 : ℚ) + 1) 100 ∧
          (handleColorDotKeyDown ⟨⟨0, 40, 1⟩, 200, 99, 40, 0, none⟩
            DotKey.arrowRight).1.squareTop = 99) ∧
        ((handleColorDotKeyDown ⟨⟨0, 40, 1⟩, 200, 99, 40, 0, none⟩
            DotKey.enter).1.squareLeft = 40 ∧
          (handleColorDotKeyDown ⟨⟨0, 40, 1⟩, 200, 99, 40, 0, none⟩
            DotKey.enter).1.squareTop = 99 ∧
          (handleColorDotKeyDown ⟨⟨0, 40, 1⟩, 200, 99, 40, 0, none⟩
            DotKey.enter).2 = [Notif.commit ⟨200, 40, 100 - 99⟩]) ∧
        ((handleColorDotKeyDown ⟨⟨0, 40, 1⟩, 200, 99, 40, 0, none⟩
            DotKey.space).1.squareLeft = 40 ∧
          (handleColorDotKeyDown ⟨⟨0, 40, 1⟩, 200, 99, 40, 0, none⟩
            DotKey.space).1.squareTop = 99 ∧
          (handleColorDotKeyDown ⟨⟨0, 40, 1⟩, 200, 99, 40, 0, none⟩
            DotKey.space).2 = [Notif.commit ⟨200, 40, 100 - 99⟩])) :=
  ⟨by norm_num, by norm_num, by norm_num, by norm_num,
    C5_color_dot_keydown ⟨⟨0, 40, 1⟩, 200, 99, 40, 0, none⟩
      (by norm_num) (by norm_num) (by norm_num) (by norm_num)⟩

/-- C7: with the color dot active, the pointer-up handler first runs the
committing update, whose commit callback is therefore the only
notification of the trace and precedes the clearing of the active dot
index; the final state has no active dot, and the pointer-move handler
emits no notification at all (so the commit trivially follows every
live-update of the interaction). -/
theorem C7_commit_before_clear (st : PickerState) (rect : DOMRect)
    (cx cy : ℚ) (hact : st.activeDotIndex = some 1) :
    (handleSquarePointerUp st true rect cx cy).2 =
        [TraceStep.notif (Notif.commit
            ⟨st.squareHue, getHorizontalPercentageOfRectangle rect cx,
              100 - getVerticalPercentageOfRectangle rect cy⟩),
          TraceStep.clearActiveDot] ∧
      (handleSquarePointerUp st true rect cx cy).1.activeDotIndex = none ∧
      (handleSquarePointerMove st true rect cx cy).2 = [] := by
  refine ⟨?_, ?_, ?_⟩ <;>
    simp [handleSquarePointerUp, handleSquarePointerMove, updateSquareValue,
      updateColorDot, hact]

/-- C7 witness: a concrete active-dot state and a pointer-up at (50, 50)
in a 100 by 100 field. -/
theorem C7_commit_before_clear_witness :
    (handleSquarePointerUp ⟨⟨0, 10, 20⟩, 120, 20, 10, 0, some 1⟩ true
          ⟨0, 0, 100, 100, 100, 100⟩ 50 50).2 =
        [TraceStep.notif (Notif.commit
            ⟨120,
              getHorizontalPercentageOfRectangle ⟨0, 0, 100, 100, 100, 100⟩ 50,
              100 -
                getVerticalPercentageOfRectangle ⟨0, 0, 100, 100, 100, 100⟩ 50⟩),
          TraceStep.clearActiveDot] ∧
      (handleSquarePointerUp ⟨⟨0, 10, 20⟩, 120, 20, 10, 0, some 1⟩ true
          ⟨0, 0, 100, 100, 100, 100⟩ 50 50).1.activeDotIndex = none ∧
      (handleSquarePointerMove ⟨⟨0, 10, 20⟩, 120, 20, 10, 0, some 1⟩ true
          ⟨0, 0, 100, 100, 100, 100⟩ 50 50).2 = [] :=
  C7_commit_before_clear ⟨⟨0, 10, 20⟩, 120, 20, 10, 0, some 1⟩
    ⟨0, 0, 100, 100, 100, 100⟩ 50 50 rfl

/-- C10: for every non-string selectedColor value (in particular every
value of the declared ColorValue prop type, and undefined), the activeColor
initializer yields ColorValue.fromString of the default hex 00121D; the
selectedColor-derived branch is taken exactly for strings. -/
theorem C10_active_color_default (c : JsColorInput)
    (h : ∀ s, c ≠ JsColorInput.jsString s) :
    initialActiveColor c = ColorVal.fromString "#00121D" ∧
      ∀ s, initialActiveColor (JsColorInput.jsString s) =
        ColorVal.fromString s := by
  refine ⟨?_, fun s => rfl⟩
  cases c with
  | jsString s => exact absurd rfl (h s)
  | jsColorValue hsv => rfl
  | jsUndefined => rfl

/-- C10 witness: a ColorValue-typed selectedColor (a non-string runtime
value) is ignored in favor of the default. -/
theorem C10_active_color_default_witness :
    initialActiveColor (JsColorInput.jsColorValue ⟨120, 50, 50⟩) =
        ColorVal.fromString "#00121D" ∧
      ∀ s, initialActiveColor (JsColorInput.jsString s) =
        ColorVal.fromString s :=
  C10_active_color_default (JsColorInput.jsColorValue ⟨120, 50, 50⟩)
    (fun s h => JsColorInput.noConfusion h)

/-- C8 (modelled from the spec, the Slider implementation is not under
src/): construction refuses min >= max or step <= 0 with a
ConfigurationError and succeeds otherwise; at runtime, an out-of-bounds
thumb index makes activate a silent no-op, a raw value outside the range
is clamped into it by moveActiveThumb, and a pointer outside the field
rectangle still yields an in-bounds percentage — no operation has an
error outcome. -/
theorem C8_construction_and_clamping (cfg : SliderConfig) (vs : List ℚ) :
    ((cfg.max ≤ cfg.min ∨ cfg.step ≤ 0) →
        mkRangeModel cfg vs = Except.error .configurationError) ∧
      (cfg.min < cfg.max → 0 < cfg.step →
        mkRangeModel cfg vs = Except.ok ⟨cfg, vs, none⟩) ∧
      (∀ (m : RangeModel) (i : ℕ), m.values.length ≤ i →
        m.activate i = m) ∧
      (∀ (m : RangeModel) (v : ℚ), m.config.min ≤ m.config.max →
        m.config.min ≤ m.moveActiveThumb v ∧
          m.moveActiveThumb v ≤ m.config.max) ∧
      (∀ (rect : DOMRect) (p : ℚ), 0 < rect.width →
        rect.right = rect.left + rect.width →
        0 ≤ getHorizontalPercentageOfRectangle rect p ∧
          getHorizontalPercentageOfRectangle rect p ≤ 100) := by
  refine ⟨?_, ?_, ?_, ?_, ?_⟩
  · intro h
    simp [mkRangeModel, h]
  · intro h1 h2
    have : ¬(cfg.max ≤ cfg.min ∨ cfg.step ≤ 0) := by
      push_neg
      exact ⟨h1, h2⟩
    simp [mkRangeModel, this]
  · intro m i h
    simp [RangeModel.activate, Nat.not_lt.mpr h]
  · intro m v h
    refine ⟨le_min h (le_max_left _ _), min_le_left _ _⟩
  · intro rect p hw hr
    exact clamped_ratio_bounds p rect.left rect.right rect.width hw hr

/-- C8 witness: min 5 >= max 0 is refused; min 0 < max 5 with step 1/4 is
accepted; activate past the single thumb is a no-op; a raw value 99 is
clamped to max 5; a pointer at 150 over a 100-wide rectangle maps into the
percentage interval. -/
theorem C8_construction_and_clamping_witness :
    mkRangeModel ⟨5, 0, 1⟩ [] = Except.error .configurationError ∧
      mkRangeModel ⟨0, 5, 1 / 4⟩ [1 / 4] =
        Except.ok ⟨⟨0, 5, 1 / 4⟩, [1 / 4], none⟩ ∧
      RangeModel.activate ⟨⟨0, 5, 1 / 4⟩, [1 / 4], none⟩ 1 =
        ⟨⟨0, 5, 1 / 4⟩, [1 / 4], none⟩ ∧
      ((0 : ℚ) ≤ RangeModel.moveActiveThumb ⟨⟨0, 5, 1 / 4⟩, [1 / 4], none⟩ 99 ∧
        RangeModel.moveActiveThumb ⟨⟨0, 5, 1 / 4⟩, [1 / 4], none⟩ 99 ≤ 5) ∧
      (0 ≤ getHorizontalPercentageOfRectangle ⟨0, 0, 100, 100, 100, 100⟩ 150 ∧
        getHorizontalPercentageOfRectangle ⟨0, 0, 100, 100, 100, 100⟩ 150 ≤ 100) :=
  ⟨(C8_construction_and_clamping ⟨5, 0, 1⟩ []).1 (Or.inl (by norm_num)),
    (C8_construction_and_clamping ⟨0, 5, 1 / 4⟩ [1 / 4]).2.1
      (by norm_num) (by norm_num),
    (C8_construction_and_clamping ⟨0, 5, 1 / 4⟩ [1 / 4]).2.2.1
      ⟨⟨0, 5, 1 / 4⟩, [1 / 4], none⟩ 1 (by norm_num),
    (C8_construction_and_clamping ⟨0, 5, 1 / 4⟩ [1 / 4]).2.2.2.1
      ⟨⟨0, 5, 1 / 4⟩, [1 / 4], none⟩ 99 (by norm_num),
    (C8_construction_and_clamping ⟨0, 5, 1 / 4⟩ [1 / 4]).2.2.2.2
      ⟨0, 0, 100, 100, 100, 100⟩ 150 (by norm_num) (by norm_num)⟩

/-- findIdxOpt returns an in-range index satisfying the predicate, and no
earlier index satisfies it. -/
lemma findIdxOpt_eq_some_spec (p : ℚ → Bool) :
    ∀ (l : List ℚ) (k : ℕ), findIdxOpt p l = some k →
      k < l.length ∧ p (l.getD k 0) = true ∧
        ∀ m, m < k → p (l.getD m 0) = false := by
  intro l
  induction l with
  | nil => intro k h; simp [findIdxOpt] at h
  | cons a as ih =>
    intro k h
    by_cases hpa : p a
    · simp [findIdxOpt, hpa] at h
      subst h
      exact ⟨Nat.succ_pos _, by simpa using hpa,
        fun m hm => absurd hm (Nat.not_lt_zero m)⟩
    · simp [findIdxOpt, hpa, Option.map_eq_some'] at h
      obtain ⟨k0, hk0, rfl⟩ := h
      obtain ⟨h1, h2, h3⟩ := ih k0 hk0
      refine ⟨Nat.succ_lt_succ h1, by simpa using h2, ?_⟩
      intro m hm
      cases m with
      | zero => simpa using hpa
      | succ m0 => simpa using h3 m0 (Nat.lt_of_succ_lt_succ hm)

/-- findIdxOpt succeeds when some in-range index satisfies the
predicate. -/
lemma findIdxOpt_isSome_of (p : ℚ → Bool) :
    ∀ (l : List ℚ) (k : ℕ), k < l.length → p (l.getD k 0) = true →
      ∃ j, findIdxOpt p l = some j := by
  intro l
  induction l with
  | nil => intro k hk _; simp at hk
  | cons a as ih =>
    intro k hk hp
    by_cases hpa : p a
    · exact ⟨0, by simp [findIdxOpt, hpa]⟩
    · cases k with
      | zero => rw [List.getD_cons_zero] at hp; exact absurd hp hpa
      | succ k0 =>
        obtain ⟨j, hj⟩ :=
          ih k0 (Nat.lt_of_succ_lt_succ hk) (by simpa using hp)
        exact ⟨j + 1, by simp [findIdxOpt, hpa, hj]⟩

/-- findIdxOpt fails when no in-range index satisfies the predicate. -/
lemma findIdxOpt_eq_none_of (p : ℚ → Bool) :
    ∀ (l : List ℚ), (∀ m, m < l.length → p (l.getD m 0) = false) →
      findIdxOpt p l = none := by
  intro l
  induction l with
  | nil => intro _; rfl
  | cons a as ih =>
    intro h
    have hpa : p a = false := by simpa using h 0 (Nat.succ_pos _)
    have htail : findIdxOpt p as = none := by
      apply ih
      intro m hm
      simpa using h (m + 1) (Nat.succ_lt_succ hm)
    simp [findIdxOpt, hpa, htail]

/-- Indexing into a dropped prefix shifts the index. -/
lemma getD_drop (l : List ℚ) :
    ∀ (n k : ℕ), (l.drop n).getD k 0 = l.getD (n + k) 0 := by
  induction l with
  | nil => intro n k; simp
  | cons a as ih =>
    intro n k
    cases n with
    | zero => simp
    | succ n0 =>
      rw [List.drop_succ_cons, ih n0 k,
        show n0 + 1 + k = (n0 + k) + 1 from by omega, List.getD_cons_succ]

/-- A successful ArrowDown search returns the first index after cur with
the same offsetLeft. -/
lemma findSameOffsetAfter_some (offsets : List ℚ) (i j : ℕ)
    (h : findSameOffsetAfter offsets i = some j) :
    i < j ∧ j < offsets.length ∧ offsets.getD j 0 = offsets.getD i 0 ∧
      ∀ k, i < k → k < j → offsets.getD k 0 ≠ offsets.getD i 0 := by
  unfold findSameOffsetAfter at h
  rw [Option.map_eq_some'] at h
  obtain ⟨k0, hk0, rfl⟩ := h
  obtain ⟨h1, h2, h3⟩ := findIdxOpt_eq_some_spec _ _ _ hk0
  rw [List.length_drop] at h1
  rw [getD_drop] at h2
  refine ⟨by omega, by omega, by simpa using h2, ?_⟩
  intro k hk1 hk2 he
  have hm := h3 (k - (i + 1)) (by omega)
  rw [getD_drop, show i + 1 + (k - (i + 1)) = k from by omega] at hm
  rw [he] at hm
  simp at hm

/-- The ArrowDown search succeeds when a later index shares the
offsetLeft. -/
lemma findSameOffsetAfter_isSome (offsets : List ℚ) (i j : ℕ)
    (hij : i < j) (hj : j < offsets.length)
    (heq : offsets.getD j 0 = offsets.getD i 0) :
    ∃ j0, findSameOffsetAfter offsets i = some j0 := by
  have hk : j - (i + 1) < (offsets.drop (i + 1)).length := by
    rw [List.length_drop]; omega
  have hp : ((offsets.drop (i + 1)).getD (j - (i + 1)) 0 ==
      offsets.getD i 0) = true := by
    rw [getD_drop, show i + 1 + (j - (i + 1)) = j from by omega, heq]
    simp
  obtain ⟨j0, hj0⟩ :=
    findIdxOpt_isSome_of (fun o => o == offsets.getD i 0) _ _ hk hp
  refine ⟨i + 1 + j0, ?_⟩
  unfold findSameOffsetAfter
  rw [hj0]
  rfl

/-- The ArrowDown search fails when no later index shares the
offsetLeft. -/
lemma findSameOffsetAfter_none (offsets : List ℚ) (i : ℕ)
    (h : ∀ k, i < k → k < offsets.length →
      offsets.getD k 0 ≠ offsets.getD i 0) :
    findSameOffsetAfter offsets i = none := by
  unfold findSameOffsetAfter
  rw [findIdxOpt_eq_none_of]
  · rfl
  · intro m hm
    rw [List.length_drop] at hm
    rw [getD_drop]
    have := h (i + 1 + m) (by omega) (by omega)
    simpa using this

/-- A successful ArrowUp scan returns the last index before i with the
target offsetLeft. -/
lemma findSameOffsetBefore_some (offsets : List ℚ) (target : ℚ) :
    ∀ (i j : ℕ), findSameOffsetBefore offsets target i = some j →
      j < i ∧ offsets.getD j 0 = target ∧
        ∀ k, j < k → k < i → offsets.getD k 0 ≠ target := by
  intro i
  induction i with
  | zero => intro j h; simp [findSameOffsetBefore] at h
  | succ i0 ih =>
    intro j h
    unfold findSameOffsetBefore at h
    by_cases hp : (offsets.getD i0 0 == target) = true
    · rw [if_pos hp] at h
      injection h with h
      subst h
      refine ⟨Nat.lt_succ_self _, by simpa using hp, ?_⟩
      intro k hk1 hk2
      omega
    · rw [if_neg hp] at h
      obtain ⟨h1, h2, h3⟩ := ih j h
      refine ⟨Nat.lt_succ_of_lt h1, h2, ?_⟩
      intro k hk1 hk2
      rcases Nat.lt_succ_iff_lt_or_eq.mp hk2 with hk | hk
      · exact h3 k hk1 hk
      · subst hk
        intro he
        exact hp (by simpa using he)

/-- The ArrowUp scan succeeds when an earlier index has the target
offsetLeft. -/
lemma findSameOffsetBefore_isSome (offsets : List ℚ) (target : ℚ) :
    ∀ (i j : ℕ), j < i → offsets.getD j 0 = target →
      ∃ j0, findSameOffsetBefore offsets target i = some j0 := by
  intro i
  induction i with
  | zero => intro j h _; omega
  | succ i0 ih =>
    intro j hj hp
    unfold findSameOffsetBefore
    by_cases hq : (offsets.getD i0 0 == target) = true
    · exact ⟨i0, by rw [if_pos hq]⟩
    · rcases Nat.lt_succ_iff_lt_or_eq.mp hj with h | h
      · obtain ⟨j0, hj0⟩ := ih j h hp
        exact ⟨j0, by rw [if_neg hq]; exact hj0⟩
      · subst h
        exact absurd (by simpa using hp) hq

/-- The ArrowUp scan fails when no earlier index has the target
offsetLeft. -/
lemma findSameOffsetBefore_none (offsets : List ℚ) (target : ℚ) :
    ∀ (i : ℕ), (∀ k, k < i → offsets.getD k 0 ≠ target) →
      findSameOffsetBefore offsets target i = none := by
  intro i
  induction i with
  | zero => intro _; rfl
  | succ i0 ih =>
    intro h
    unfold findSameOffsetBefore
    rw [if_neg, ih]
    · intro k hk
      exact h k (Nat.lt_succ_of_lt hk)
    · intro hq
      exact h i0 (Nat.lt_succ_self _) (by simpa using hq)

/-- C6: in the palette grid, with swatch i focused, ArrowLeft focuses
max(i-1, 0) (natural subtraction), ArrowRight focuses min(i+1, length-1),
ArrowDown focuses the first later swatch with the same offsetLeft when one
exists, ArrowUp the last earlier swatch with the same offsetLeft when one
exists, and Enter or Space clicks the focused swatch. -/
theorem C6_palette_navigation (offsets : List ℚ) (i : ℕ)
    (hi : i < offsets.length) :
    (handleKeyDown offsets (some i) PaletteKey.arrowLeft).newFocus =
        some (i - 1) ∧
      (handleKeyDown offsets (some i) PaletteKey.arrowRight).newFocus =
        some (min (i + 1) (offsets.length - 1)) ∧
      ((∃ j, i < j ∧ j < offsets.length ∧
          offsets.getD j 0 = offsets.getD i 0) →
        ∃ j, (handleKeyDown offsets (some i) PaletteKey.arrowDown).newFocus =
            some j ∧ i < j ∧ j < offsets.length ∧
          offsets.getD j 0 = offsets.getD i 0 ∧
          ∀ k, i < k → k < j → offsets.getD k 0 ≠ offsets.getD i 0) ∧
      ((∃ j, j < i ∧ offsets.getD j 0 = offsets.getD i 0) →
        ∃ j, (handleKeyDown offsets (some i) PaletteKey.arrowUp).newFocus =
            some j ∧ j < i ∧
          offsets.getD j 0 = offsets.getD i 0 ∧
          ∀ k, j < k → k < i → offsets.getD k 0 ≠ offsets.getD i 0) ∧
      (handleKeyDown offsets (some i) PaletteKey.enter).clicked = some i ∧
      (handleKeyDown offsets (some i) PaletteKey.space).clicked = some i := by
  have hne : offsets.isEmpty = false := by
    cases offsets with
    | nil => simp at hi
    | cons a as => rfl
  refine ⟨?_, ?_, ?_, ?_, ?_, ?_⟩
  · have h1 : i - 1 < offsets.length := by omega
    simp [handleKeyDown, hne, applyNewIndex, h1]
  · have h2 : min (i + 1) (offsets.length - 1) < offsets.length := by omega
    simp [handleKeyDown, hne, applyNewIndex, h2]
  · intro hex
    obtain ⟨j, hij, hj, heq⟩ := hex
    obtain ⟨j0, hj0⟩ := findSameOffsetAfter_isSome offsets i j hij hj heq
    obtain ⟨ha, hb, hc, hd⟩ := findSameOffsetAfter_some offsets i j0 hj0
    refine ⟨j0, ?_, ha, hb, hc, hd⟩
    simp [handleKeyDown, hne, hj0, applyNewIndex, hb]
  · intro hex
    obtain ⟨j, hij, heq⟩ := hex
    obtain ⟨j0, hj0⟩ :=
      findSameOffsetBefore_isSome offsets (offsets.getD i 0) i j hij heq
    obtain ⟨ha, hb, hc⟩ :=
      findSameOffsetBefore_some offsets (offsets.getD i 0) i j0 hj0
    have hj0len : j0 < offsets.length := by omega
    have hj0n : findSameOffsetBefore offsets (offsets[i]?.getD 0) i =
        some j0 := by simpa using hj0
    refine ⟨j0, ?_, ha, hb, hc⟩
    simp [handleKeyDown, hne, hj0n, applyNewIndex, hj0len]
  · simp [handleKeyDown, hne]
  · simp [handleKeyDown, hne]

/-- C6 witness: six swatches in two columns (offsetLeft alternating 0 and
10), swatch 3 focused: ArrowDown reaches swatch 5, ArrowUp swatch 1. -/
theorem C6_palette_navigation_witness :
    ((3 : ℕ) < ([0, 10, 0, 10, 0, 10] : List ℚ).length) ∧
      ((handleKeyDown [0, 10, 0, 10, 0, 10] (some 3)
            PaletteKey.arrowLeft).newFocus = some (3 - 1) ∧
        (handleKeyDown [0, 10, 0, 10, 0, 10] (some 3)
            PaletteKey.arrowRight).newFocus =
          some (min (3 + 1) (([0, 10, 0, 10, 0, 10] : List ℚ).length - 1)) ∧
        ((∃ j, 3 < j ∧ j < ([0, 10, 0, 10, 0, 10] : List ℚ).length ∧
            ([0, 10, 0, 10, 0, 10] : List ℚ).getD j 0 =
              ([0, 10, 0, 10, 0, 10] : List ℚ).getD 3 0) →
          ∃ j, (handleKeyDown [0, 10, 0, 10, 0, 10] (some 3)
              PaletteKey.arrowDown).newFocus = some j ∧ 3 < j ∧
            j < ([0, 10, 0, 10, 0, 10] : List ℚ).length ∧
            ([0, 10, 0, 10, 0, 10] : List ℚ).getD j 0 =
              ([0, 10, 0, 10, 0, 10] : List ℚ).getD 3 0 ∧
            ∀ k, 3 < k → k < j →
              ([0, 10, 0, 10, 0, 10] : List ℚ).getD k 0 ≠
                ([0, 10, 0, 10, 0, 10] : List ℚ).getD 3 0) ∧
        ((∃ j, j < 3 ∧ ([0, 10, 0, 10, 0, 10] : List ℚ).getD j 0 =
            ([0, 10, 0, 10, 0, 10] : List ℚ).getD 3 0) →
          ∃ j, (handleKeyDown [0, 10, 0, 10, 0, 10] (some 3)
              PaletteKey.arrowUp).newFocus = some j ∧ j < 3 ∧
            ([0, 10, 0, 10, 0, 10] : List ℚ).getD j 0 =
              ([0, 10, 0, 10, 0, 10] : List ℚ).getD 3 0 ∧
            ∀ k, j < k → k < 3 →
              ([0, 10, 0, 10, 0, 10] : List ℚ).getD k 0 ≠
                ([0, 10, 0, 10, 0, 10] : List ℚ).getD 3 0) ∧
        (handleKeyDown [0, 10, 0, 10, 0, 10] (some 3)
            PaletteKey.enter).clicked = some 3 ∧
        (handleKeyDown [0, 10, 0, 10, 0, 10] (some 3)
            PaletteKey.space).clicked = some 3) :=
  ⟨by norm_num, C6_palette_navigation [0, 10, 0, 10, 0, 10] 3 (by norm_num)⟩

/-- C9: with swatch i focused, when no later swatch shares the offsetLeft
of swatch i, ArrowDown leaves everything unchanged (no focus update, no
click, no preventDefault), and symmetrically for ArrowUp with no earlier
swatch sharing it. -/
theorem C9_no_same_offset_noop (offsets : List ℚ) (i : ℕ)
    (hi : i < offsets.length)
    (hdown : ∀ j, i < j → j < offsets.length →
      offsets.getD j 0 ≠ offsets.getD i 0)
    (hup : ∀ j, j < i → offsets.getD j 0 ≠ offsets.getD i 0) :
    handleKeyDown offsets (some i) PaletteKey.arrowDown =
        ⟨none, none, false⟩ ∧
      handleKeyDown offsets (some i) PaletteKey.arrowUp =
        ⟨none, none, false⟩ := by
  have hne : offsets.isEmpty = false := by
    cases offsets with
    | nil => simp at hi
    | cons a as => rfl
  have hupn : findSameOffsetBefore offsets (offsets[i]?.getD 0) i = none := by
    simpa using findSameOffsetBefore_none offsets (offsets.getD i 0) i hup
  constructor
  · simp [handleKeyDown, hne, findSameOffsetAfter_none offsets i hdown,
      applyNewIndex]
  · simp [handleKeyDown, hne, hupn, applyNewIndex]

/-- C9 witness: three swatches with pairwise different offsetLeft values,
the middle one focused. -/
theorem C9_no_same_offset_noop_witness :
    handleKeyDown [0, 10, 20] (some 1) PaletteKey.arrowDown =
        ⟨none, none, false⟩ ∧
      handleKeyDown [0, 10, 20] (some 1) PaletteKey.arrowUp =
        ⟨none, none, false⟩ :=
  C9_no_same_offset_noop [0, 10, 20] 1 (by norm_num)
    (by
      intro j h1 h2
      have hlen : j = 2 := by simp at h2; omega
      subst hlen
      decide)
    (by
      intro j h1
      have hj : j = 0 := by omega
      subst hj
      decide)
